import Mathlib

/-!
Verification of the Network-Triage-Tool discovery and supervision core.

This file gives a shallow embedding, in Lean 4, of the discovery/diagnostics
core of the Network-Triage-Tool repository, centred on
`src/shared/shared_toolkit.py` (class `NetworkTriageToolkitBase`):

* the manual LLDP TLV walk inside `_run_discovery_capture._packet_callback`
  (bytes are modelled as `List Nat`, Python byte-slicing as `List.drop`/
  `List.take`, which like Python slices never read out of bounds);
* the CDP field extraction in the same callback (the scapy attribute lookup
  `packet[CDPMsg].field` is modelled as an `Option`-valued record access,
  `none` standing for the `AttributeError` that scapy raises when no layer
  carries the field; the raised error is caught by the surrounding
  `except Exception` block, which we model with `Except`);
* the `stop_filter` callback protocol of the capture session, its
  `packet_found` flag and its final-report guard;
* the thread bookkeeping of `start_discovery_capture` /
  `stop_discovery_capture` and of `continuous_ping` / `stop_ping`,
  modelled as explicit state machines so that interleavings of concurrent
  callers can be examined.

Python exceptions inside the decoders are modelled with `Except String`;
text decoding (`bytes.decode`) is modelled as the identity on byte lists,
since none of the properties verified here concern character encoding.
-/

namespace NetworkTriage

/-- The five local variables of the LLDP branch of `_packet_callback`
(`chassis_id_val, port_id_val, port_description_val, system_name_val,
mgmt_address_val`), each initially `None`. -/
structure LLDPFields where
  chassis_id_val : Option (List Nat)
  port_id_val : Option (List Nat)
  port_description_val : Option (List Nat)
  system_name_val : Option (List Nat)
  mgmt_address_val : Option (List Nat)
deriving Repr, DecidableEq

/-- The initial state `(None,) * 5` of the LLDP field variables. -/
def initFields : LLDPFields := ⟨none, none, none, none, none⟩

/-- The value `struct.unpack("!H", raw_payload[i : i + 2])[0]`: the 16-bit big-endian
TLV header starting at offset `i`. -/
def tlvHeaderAt (raw : List Nat) (i : Nat) : Nat :=
  256 * raw.getD i 0 + raw.getD (i + 1) 0

/-- The type bits: `tlv_type = tlv_header >> 9`. -/
def tlvTypeOf (hdr : Nat) : Nat := hdr >>> 9

/-- The length bits: `tlv_len = tlv_header & 0x1FF`. -/
def tlvLenOf (hdr : Nat) : Nat := hdr &&& 0x1FF

/-- The value slice `value_bytes = raw_payload[i + 2 : i + 2 + tlv_len]`. -/
def tlvValueAt (raw : List Nat) (i : Nat) (len : Nat) : List Nat :=
  (raw.drop (i + 2)).take len

/-- Python's `socket.inet_ntoa` (re-exported by scapy) raises unless its argument is
exactly four bytes; we keep the four octets instead of rendering dotted
decimal. -/
def inet_ntoa (b : List Nat) : Except String (List Nat) :=
  if b.length = 4 then .ok b else .error "packed IP wrong length for inet_ntoa"

/-- The `while i < len(raw_payload)` TLV loop of the LLDP branch of
`_packet_callback` (shared_toolkit.py lines 121-136), with the loop state
`(i, the five field variables)` passed explicitly.  `.error` is the
exception that `inet_ntoa` can raise inside the loop; both bound checks
`break` (returning the fields collected so far), and TLV type 0 breaks as
well.  The structural `fuel` argument makes the loop executable by
reduction; every iteration requires `i < raw.length` and advances `i` by
at least 2, so the `raw.length + 1` units of fuel supplied by `lldpLoop`
can never run out, and the out-of-fuel branch coincides with the loop's
normal exit. -/
def lldpLoopF (raw : List Nat) : Nat → Nat → LLDPFields → Except String LLDPFields
  | 0, _, st => .ok st
  | fuel + 1, i, st =>
    if i < raw.length then
      if i + 2 > raw.length then .ok st
      else
        let hdr := tlvHeaderAt raw i
        let ty := tlvTypeOf hdr
        let len := tlvLenOf hdr
        if i + 2 + len > raw.length then .ok st
        else
          let value_bytes := tlvValueAt raw i len
          if ty = 1 then
            lldpLoopF raw fuel (i + 2 + len) { st with chassis_id_val := some (value_bytes.drop 1) }
          else if ty = 2 then
            lldpLoopF raw fuel (i + 2 + len) { st with port_id_val := some (value_bytes.drop 1) }
          else if ty = 4 then
            lldpLoopF raw fuel (i + 2 + len) { st with port_description_val := some value_bytes }
          else if ty = 5 then
            lldpLoopF raw fuel (i + 2 + len) { st with system_name_val := some value_bytes }
          else if ty = 8 ∧ 1 < value_bytes.length ∧ value_bytes.getD 1 0 = 1 then
            match inet_ntoa ((value_bytes.drop 2).take 4) with
            | .ok a => lldpLoopF raw fuel (i + 2 + len) { st with mgmt_address_val := some a }
            | .error e => .error e
          else if ty = 0 then .ok st
          else lldpLoopF raw fuel (i + 2 + len) st
    else .ok st

/-- The TLV loop entered at offset `i`. -/
def lldpLoop (raw : List Nat) (i : Nat) (st : LLDPFields) :
    Except String LLDPFields :=
  lldpLoopF raw (raw.length + 1) i st

/-- Python truthiness of a bytes-or-None variable: falsy iff `None` or empty. -/
def isFalsy (o : Option (List Nat)) : Bool :=
  match o with
  | none => true
  | some l => l.isEmpty

/-- The error text of `raise ValueError("Essential LLDP fields not found.")`
after being caught and formatted by the LLDP branch. -/
def essentialFieldsErr : String :=
  "Error parsing LLDP packet: Essential LLDP fields not found."

/-- The whole LLDP decode attempt of `_packet_callback`: run the TLV loop on
the payload, then `if not chassis_id_val or not port_id_val: raise ValueError`,
with every exception caught and turned into the
`f"Error parsing LLDP packet: {e}"` result. -/
def lldpDecode (raw_payload : List Nat) : Except String LLDPFields :=
  match lldpLoop raw_payload 0 initFields with
  | .error e => .error ("Error parsing LLDP packet: " ++ e)
  | .ok st =>
    if isFalsy st.chassis_id_val || isFalsy st.port_id_val then
      .error essentialFieldsErr
    else .ok st

/-! ## Bounds-instrumented replay of the LLDP loop

`lldpLoopChecked` re-runs the exact control flow of `lldpLoopF`, but every
indexed byte access that the Python code performs (`raw_payload[i]`,
`raw_payload[i+1]` inside the `struct.unpack` slice, `value_bytes[1]` in
the management-address guard, and the full `value_bytes` slice) is done
through a partial read that fails with `none` when out of bounds.  Showing
the checked replay never returns `none` and agrees with `lldpLoop` shows
the decoder never reads past the end of the buffer. -/

/-- The two header bytes of `raw_payload[i : i + 2]`, read with bounds
checks. -/
def tlvHeaderAtChecked (raw : List Nat) (i : Nat) : Option Nat :=
  match raw.get? i, raw.get? (i + 1) with
  | some b0, some b1 => some (256 * b0 + b1)
  | _, _ => none

/-- The slice `raw_payload[i + 2 : i + 2 + len]`, demanded to lie wholly
inside the buffer. -/
def tlvValueAtChecked (raw : List Nat) (i : Nat) (len : Nat) : Option (List Nat) :=
  if i + 2 + len ≤ raw.length then some ((raw.drop (i + 2)).take len) else none

/-- Bounds-instrumented version of `lldpLoopF`; `none` signals an
out-of-bounds read. -/
def lldpLoopChecked (raw : List Nat) : Nat → Nat → LLDPFields →
    Option (Except String LLDPFields)
  | 0, _, st => some (.ok st)
  | fuel + 1, i, st =>
    if i < raw.length then
      if i + 2 > raw.length then some (.ok st)
      else
        match tlvHeaderAtChecked raw i with
        | none => none
        | some hdr =>
          let ty := tlvTypeOf hdr
          let len := tlvLenOf hdr
          if i + 2 + len > raw.length then some (.ok st)
          else
            match tlvValueAtChecked raw i len with
            | none => none
            | some value_bytes =>
              if ty = 1 then
                lldpLoopChecked raw fuel (i + 2 + len) { st with chassis_id_val := some (value_bytes.drop 1) }
              else if ty = 2 then
                lldpLoopChecked raw fuel (i + 2 + len) { st with port_id_val := some (value_bytes.drop 1) }
              else if ty = 4 then
                lldpLoopChecked raw fuel (i + 2 + len) { st with port_description_val := some value_bytes }
              else if ty = 5 then
                lldpLoopChecked raw fuel (i + 2 + len) { st with system_name_val := some value_bytes }
              else if ty = 8 then
                if 1 < value_bytes.length then
                  match value_bytes.get? 1 with
                  | none => none
                  | some sub =>
                    if sub = 1 then
                      match inet_ntoa ((value_bytes.drop 2).take 4) with
                      | .ok a => lldpLoopChecked raw fuel (i + 2 + len) { st with mgmt_address_val := some a }
                      | .error e => some (.error e)
                    else lldpLoopChecked raw fuel (i + 2 + len) st
                else lldpLoopChecked raw fuel (i + 2 + len) st
              else if ty = 0 then some (.ok st)
              else lldpLoopChecked raw fuel (i + 2 + len) st
    else some (.ok st)

/-- Bounds-instrumented version of `lldpDecode`. -/
def lldpDecodeChecked (raw_payload : List Nat) : Option (Except String LLDPFields) :=
  match lldpLoopChecked raw_payload (raw_payload.length + 1) 0 initFields with
  | none => none
  | some (.error e) => some (.error ("Error parsing LLDP packet: " ++ e))
  | some (.ok st) =>
    if isFalsy st.chassis_id_val || isFalsy st.port_id_val then
      some (.error essentialFieldsErr)
    else some (.ok st)

/-! ## The sequence of TLV records the loop visits

`walkTLVs` replays the loop control flow once more, recording the
`(tlv_type, value_bytes)` pair of every TLV whose dispatch completes, so
that the duplicate-handling of the field assignments can be stated: the
loop body overwrites a field on every matching TLV, hence the last
surviving occurrence wins. -/

/-- The `(tlv_type, value_bytes)` records visited by the LLDP loop from
offset `i`: recording stops where the loop stops (either bound check, an
End-of-LLDPDU TLV, or the `inet_ntoa` exception). -/
def walkTLVsF (raw : List Nat) : Nat → Nat → List (Nat × List Nat)
  | 0, _ => []
  | fuel + 1, i =>
    if i < raw.length then
      if i + 2 > raw.length then []
      else
        let hdr := tlvHeaderAt raw i
        let ty := tlvTypeOf hdr
        let len := tlvLenOf hdr
        if i + 2 + len > raw.length then []
        else
          let value_bytes := tlvValueAt raw i len
          if ty = 0 then []
          else if ty = 8 ∧ 1 < value_bytes.length ∧ value_bytes.getD 1 0 = 1 ∧
              ((value_bytes.drop 2).take 4).length ≠ 4 then []
          else (ty, value_bytes) :: walkTLVsF raw fuel (i + 2 + len)
    else []

/-- The TLV records visited from offset `i`, with the fuel of `lldpLoop`. -/
def walkTLVs (raw : List Nat) (i : Nat) : List (Nat × List Nat) :=
  walkTLVsF raw (raw.length + 1) i

/-- The value of the last record of type `t` in a TLV record list, if any. -/
def lastValueOfType (t : Nat) : List (Nat × List Nat) → Option (List Nat)
  | [] => none
  | (ty, v) :: rest =>
    match lastValueOfType t rest with
    | some w => some w
    | none => if ty = t then some v else none

/-! ## The CDP branch of `_packet_callback`

The CDP branch (shared_toolkit.py lines 149-164) does no manual byte
parsing; it reads the fields scapy dissected: `packet[CDPMsg].device_id`,
`.port_id`, `.platform` and `.addr`.  In scapy such an attribute lookup
searches every layer of the packet and raises `AttributeError` when no
layer carries the field; we model the dissected message as a record of
`Option` fields, `none` meaning the lookup raises.  The raised error is
caught by the branch's `except Exception` and becomes the
`f"Error parsing CDP packet: {e}"` result. -/

/-- One dissected CDP address record.  In scapy every record class of the
address TLV (`CDPAddrRecordIPv4`, `CDPAddrRecordIPv6`, the generic record)
is a subclass of `CDPAddrRecord`; `addrType` keeps the record's protocol
family (1 = IPv4 in CDP's encoding) and `addr` its rendered address. -/
structure CDPAddrRec where
  addrType : Nat
  addr : List Nat
deriving Repr, DecidableEq

/-- The test `isinstance(addr, CDPAddrRecord)`: true of every dissected address
record, because all record classes scapy produces are subclasses of
`CDPAddrRecord`. -/
def isinstanceCDPAddrRecord (_ : CDPAddrRec) : Bool := true

/-- The scapy-dissected CDP message as seen through the four attribute
lookups the code performs; a `none` field means the packet carries no TLV
with that field and the lookup raises `AttributeError`. -/
structure CDPMsgModel where
  device_id : Option (List Nat)
  port_id : Option (List Nat)
  platform : Option (List Nat)
  addr : Option (List CDPAddrRec)
deriving Repr, DecidableEq

/-- A scapy attribute lookup: the field's value, or `AttributeError`. -/
def getattrOr {α : Type} (o : Option α) (name : String) : Except String α :=
  match o with
  | some v => .ok v
  | none => .error ("AttributeError: " ++ name)

/-- The default `"N-A"` the code supplies to `next(...)` when the address
TLV holds no record, as bytes. -/
def naMarker : List Nat := [78, 45, 65]

/-- The identity printed by the CDP branch on success. -/
structure CDPIdentity where
  device_id : List Nat
  port_id : List Nat
  platform : List Nat
  mgmt_address : List Nat
deriving Repr, DecidableEq

/-- The CDP branch body: read `device_id`, `port_id`, `platform` and
`addr`, then
`next((addr.addr for addr in packet[CDPMsg].addr if isinstance(addr, CDPAddrRecord)), "N-A")`;
any `AttributeError` is caught and formatted.  (`bytes.decode()` is
modelled as the identity.) -/
def cdpDecode (m : CDPMsgModel) : Except String CDPIdentity :=
  match
    (do
      let d ← getattrOr m.device_id "device_id"
      let p ← getattrOr m.port_id "port_id"
      let pl ← getattrOr m.platform "platform"
      let addrs ← getattrOr m.addr "addr"
      let mgmt := (((addrs.filter isinstanceCDPAddrRecord).head?).map CDPAddrRec.addr).getD naMarker
      Except.ok (CDPIdentity.mk d p pl mgmt) : Except String CDPIdentity)
  with
  | .ok r => .ok r
  | .error e => .error ("Error parsing CDP packet: " ++ e)

/-! ## The per-frame callback of the capture session

`_packet_callback` is handed to scapy's `sniff` as `stop_filter`: its
boolean return value decides whether sniffing stops after the current
frame.  It reads the ambient `self.stop_discovery` flag and the
`packet_found` one-element list, and emits at most one result string via
the session callback. -/

/-- A captured frame as the callback inspects it: the two
`packet.haslayer(...)` tests, the raw LLDP payload bytes
(`bytes(packet[LLDPDU].payload)`), and the dissected CDP message. -/
structure Frame where
  hasLLDPDU : Bool
  lldp_payload : List Nat
  hasCDPMsg : Bool
  cdp_msg : CDPMsgModel
deriving Repr, DecidableEq

deriving instance DecidableEq for Except

/-- What one invocation of `_packet_callback` pushes through `callback`:
nothing, an LLDP decode outcome, or a CDP decode outcome. -/
inductive CallbackEvent
  | noEvent
  | lldpResult (r : Except String LLDPFields)
  | cdpResult (r : Except String CDPIdentity)
deriving Repr, DecidableEq

/-- The observable effect of one `_packet_callback` invocation. -/
structure CallbackResult where
  /-- the boolean returned to `sniff`'s `stop_filter` -/
  stop_sniffing : Bool
  /-- the updated `packet_found[0]` flag -/
  packet_found : Bool
  /-- what was emitted through `callback`, if anything -/
  emitted : CallbackEvent
deriving Repr, DecidableEq

/-- The function `_packet_callback` (shared_toolkit.py lines 110-165): an early
`return True` when stopping was requested or a packet was already found;
otherwise the LLDP branch handles any frame with an LLDP layer (emitting the
decode outcome, successful or not, and returning `True`), the CDP branch
handles any remaining frame with a CDP layer the same way, and a frame with
neither layer returns `False` so that sniffing continues. -/
def packet_callback (stop_discovery packet_found : Bool) (p : Frame) :
    CallbackResult :=
  if stop_discovery || packet_found then ⟨true, packet_found, .noEvent⟩
  else if p.hasLLDPDU then ⟨true, true, .lldpResult (lldpDecode p.lldp_payload)⟩
  else if p.hasCDPMsg then ⟨true, true, .cdpResult (cdpDecode p.cdp_msg)⟩
  else ⟨false, packet_found, .noEvent⟩

/-- The terminal report in the `finally:` block of `_run_discovery_capture`
(lines 175-177): the "Scan complete. No LLDP or CDP packets found in
{timeout} seconds." message is emitted iff no packet was found *and* no
caller-initiated stop was requested. -/
def scanCompleteMsg (timeout : Nat) : String :=
  "Scan complete. No LLDP or CDP packets found in " ++ toString timeout ++ " seconds."

/-- The guard `if not packet_found[0] and not self.stop_discovery: callback(...)`. -/
def finalReport (packet_found stop_discovery : Bool) (timeout : Nat) :
    Option String :=
  if !packet_found && !stop_discovery then some (scanCompleteMsg timeout) else none

/-! ## `start_discovery_capture` / `stop_discovery_capture`

The supervisor surface keeps one mutable slot per toolkit instance:
`self.discovery_thread` (whose liveness the guard tests) and the number of
worker threads actually in flight.  `start_discovery_capture` does

    if self.discovery_thread and self.discovery_thread.is_alive():
        callback("A scan is already in progress."); return
    self.stop_discovery = False
    self.discovery_thread = Thread(...); self.discovery_thread.start()

We model it twice: as an atomic (sequential-caller) operation, and as a
two-caller interleaving machine in which the aliveness test and the
spawn are separate steps, exactly as the Python statements execute. -/

/-- Outcome of a `start_discovery_capture` call. -/
inductive StartOutcome
  /-- a new worker thread was spawned -/
  | started
  /-- the call `callback("A scan is already in progress.")` and return -/
  | alreadyRunning
deriving Repr, DecidableEq

/-- The per-instance discovery slot: whether the thread currently referenced
by `self.discovery_thread` is alive, and how many worker threads are in
flight. -/
structure SupState where
  threadAlive : Bool
  workers : Nat
deriving Repr, DecidableEq

/-- The method `start_discovery_capture` executed without interleaving: the guard and
the spawn happen back to back. -/
def start_discovery_capture (s : SupState) : StartOutcome × SupState :=
  if s.threadAlive then (.alreadyRunning, s)
  else (.started, { threadAlive := true, workers := s.workers + 1 })

/-- A worker thread reaching the end of `_run_discovery_capture`: the
referenced thread is no longer alive and one worker has left. -/
def workerExit (s : SupState) : SupState :=
  { threadAlive := false, workers := s.workers - 1 }

/-- Sequential history entries against the discovery slot. -/
inductive SupOp
  | startOp
  | exitOp
deriving Repr, DecidableEq

/-- Apply one sequential operation. -/
def supApply (s : SupState) (op : SupOp) : SupState :=
  match op with
  | .startOp => (start_discovery_capture s).2
  | .exitOp => workerExit s

/-- Run a sequential history. -/
def supRun (l : List SupOp) (s : SupState) : SupState :=
  l.foldl supApply s

/-- The slot invariant maintained by sequential histories: a worker is in
flight exactly when the referenced thread is alive. -/
def supInv (s : SupState) : Prop :=
  s.workers = if s.threadAlive then 1 else 0

/-! A two-caller race on `start_discovery_capture`.  Each caller first
evaluates the guard `self.discovery_thread and self.discovery_thread.is_alive()`
(one atomic read), then acts on what it saw (returning, or assigning
`self.discovery_thread` and starting a new thread).  Nothing in the Python
code orders the two callers' steps. -/

/-- Where one caller is inside `start_discovery_capture`. -/
inductive CallerPhase
  | idle
  | checked (sawAlive : Bool)
  | finished
deriving Repr, DecidableEq

/-- The shared slot plus each caller's position. -/
structure RaceState where
  alive : Bool
  workers : Nat
  phaseA : CallerPhase
  phaseB : CallerPhase
deriving Repr, DecidableEq

/-- Interleaving steps: either caller evaluates its guard or performs its
post-guard action. -/
inductive RaceStep
  | checkA
  | actA
  | checkB
  | actB
deriving Repr, DecidableEq

/-- One interleaving step. A caller that saw a dead thread spawns a worker;
a caller that saw a live thread returns without spawning. -/
def raceStep (s : RaceState) (step : RaceStep) : RaceState :=
  match step with
  | .checkA =>
    match s.phaseA with
    | .idle => { s with phaseA := .checked s.alive }
    | _ => s
  | .actA =>
    match s.phaseA with
    | .checked sawAlive =>
      if sawAlive then { s with phaseA := .finished }
      else { s with alive := true, workers := s.workers + 1, phaseA := .finished }
    | _ => s
  | .checkB =>
    match s.phaseB with
    | .idle => { s with phaseB := .checked s.alive }
    | _ => s
  | .actB =>
    match s.phaseB with
    | .checked sawAlive =>
      if sawAlive then { s with phaseB := .finished }
      else { s with alive := true, workers := s.workers + 1, phaseB := .finished }
    | _ => s

/-- Run an interleaving schedule. -/
def raceRun (l : List RaceStep) (s : RaceState) : RaceState :=
  l.foldl raceStep s

/-- Both callers poised to start on an idle slot. -/
def raceInit : RaceState := ⟨false, 0, .idle, .idle⟩

/-! ## `continuous_ping` / `stop_ping`

`continuous_ping` begins with `self.stop_ping_event.clear()` and its loop
polls `self.stop_ping_event.is_set()` once per output line; `stop_ping`
performs `self.stop_ping_event.set()`.  There is no aliveness guard: any
invocation clears the shared event unconditionally. -/

/-- The shared `threading.Event`. -/
structure PingState where
  stop_ping_event : Bool
deriving Repr, DecidableEq

/-- The first statement of `continuous_ping`: `self.stop_ping_event.clear()`,
performed unconditionally (no check that another ping loop is running). -/
def continuous_ping_entry (_ : PingState) : PingState :=
  { stop_ping_event := false }

/-- The method `stop_ping`: `self.stop_ping_event.set()`. -/
def stop_ping (_ : PingState) : PingState :=
  { stop_ping_event := true }

/-- What a loop iteration reads: `self.stop_ping_event.is_set()`. -/
def ping_iteration_sees_stop (s : PingState) : Bool :=
  s.stop_ping_event

/-- Events that touch the shared stop event. -/
inductive PingStep
  /-- some invocation of `continuous_ping` begins -/
  | entry
  /-- the method `stop_ping` is called -/
  | stopSignal
  /-- a loop iteration polls the event (read-only) -/
  | iterate
deriving Repr, DecidableEq

/-- Apply one event. -/
def pingStepApply (s : PingState) (step : PingStep) : PingState :=
  match step with
  | .entry => continuous_ping_entry s
  | .stopSignal => stop_ping s
  | .iterate => s

/-- Run a sequence of events. -/
def pingRun (l : List PingStep) (s : PingState) : PingState :=
  l.foldl pingStepApply s

/-! # Helper lemmas -/

lemma get?_eq_some_getD (l : List Nat) (i : Nat) (h : i < l.length) :
    l.get? i = some (l.getD i 0) := by
  rw [List.get?_eq_getElem?, List.getD_eq_getElem?_getD, List.getElem?_eq_getElem h]
  rfl

lemma tlvHeaderAtChecked_eq (raw : List Nat) (i : Nat) (h : i + 2 ≤ raw.length) :
    tlvHeaderAtChecked raw i = some (tlvHeaderAt raw i) := by
  unfold tlvHeaderAtChecked tlvHeaderAt
  rw [get?_eq_some_getD raw i (by omega), get?_eq_some_getD raw (i + 1) (by omega)]

lemma tlvValueAtChecked_eq (raw : List Nat) (i len : Nat)
    (h : i + 2 + len ≤ raw.length) :
    tlvValueAtChecked raw i len = some (tlvValueAt raw i len) := by
  unfold tlvValueAtChecked tlvValueAt
  rw [if_pos h]

/-- The bounds-instrumented loop never fails a bounds check and computes
exactly what the plain loop computes. -/
lemma lldpLoopChecked_agree (raw : List Nat) :
    ∀ (fuel i : Nat) (st : LLDPFields),
      lldpLoopChecked raw fuel i st = some (lldpLoopF raw fuel i st) := by
  intro fuel
  induction fuel with
  | zero => intro i st; rfl
  | succ fuel ih =>
    intro i st
    simp only [lldpLoopChecked, lldpLoopF]
    by_cases h1 : i < raw.length
    · rw [if_pos h1, if_pos h1]
      by_cases h2 : i + 2 > raw.length
      · rw [if_pos h2, if_pos h2]
      · rw [if_neg h2, if_neg h2, tlvHeaderAtChecked_eq raw i (by omega)]
        simp only []
        by_cases h3 : i + 2 + tlvLenOf (tlvHeaderAt raw i) > raw.length
        · rw [if_pos h3, if_pos h3]
        · rw [if_neg h3, if_neg h3,
            tlvValueAtChecked_eq raw i (tlvLenOf (tlvHeaderAt raw i)) (by omega)]
          simp only []
          by_cases t1 : tlvTypeOf (tlvHeaderAt raw i) = 1
          · rw [if_pos t1, if_pos t1]; exact ih _ _
          · rw [if_neg t1, if_neg t1]
            by_cases t2 : tlvTypeOf (tlvHeaderAt raw i) = 2
            · rw [if_pos t2, if_pos t2]; exact ih _ _
            · rw [if_neg t2, if_neg t2]
              by_cases t4 : tlvTypeOf (tlvHeaderAt raw i) = 4
              · rw [if_pos t4, if_pos t4]; exact ih _ _
              · rw [if_neg t4, if_neg t4]
                by_cases t5 : tlvTypeOf (tlvHeaderAt raw i) = 5
                · rw [if_pos t5, if_pos t5]; exact ih _ _
                · rw [if_neg t5, if_neg t5]
                  by_cases t8 : tlvTypeOf (tlvHeaderAt raw i) = 8
                  · rw [if_pos t8]
                    have ht0 : ¬ tlvTypeOf (tlvHeaderAt raw i) = 0 := by omega
                    by_cases hl : 1 < (tlvValueAt raw i (tlvLenOf (tlvHeaderAt raw i))).length
                    · rw [if_pos hl,
                        get?_eq_some_getD _ 1 (by omega)]
                      simp only []
                      by_cases hs : (tlvValueAt raw i (tlvLenOf (tlvHeaderAt raw i))).getD 1 0 = 1
                      · rw [if_pos hs, if_pos ⟨t8, hl, hs⟩]
                        cases hi : inet_ntoa (((tlvValueAt raw i (tlvLenOf (tlvHeaderAt raw i))).drop 2).take 4) with
                        | ok a => exact ih _ _
                        | error e => rfl
                      · have hcon : ¬(tlvTypeOf (tlvHeaderAt raw i) = 8 ∧
                            1 < (tlvValueAt raw i (tlvLenOf (tlvHeaderAt raw i))).length ∧
                            (tlvValueAt raw i (tlvLenOf (tlvHeaderAt raw i))).getD 1 0 = 1) :=
                          fun hc => hs hc.2.2
                        rw [if_neg hs, if_neg hcon, if_neg ht0]
                        exact ih _ _
                    · have hcon : ¬(tlvTypeOf (tlvHeaderAt raw i) = 8 ∧
                          1 < (tlvValueAt raw i (tlvLenOf (tlvHeaderAt raw i))).length ∧
                          (tlvValueAt raw i (tlvLenOf (tlvHeaderAt raw i))).getD 1 0 = 1) :=
                        fun hc => hl hc.2.1
                      rw [if_neg hl, if_neg hcon, if_neg ht0]
                      exact ih _ _
                  · have hcon : ¬(tlvTypeOf (tlvHeaderAt raw i) = 8 ∧
                        1 < (tlvValueAt raw i (tlvLenOf (tlvHeaderAt raw i))).length ∧
                        (tlvValueAt raw i (tlvLenOf (tlvHeaderAt raw i))).getD 1 0 = 1) :=
                      fun hc => t8 hc.1
                    rw [if_neg t8, if_neg hcon]
                    by_cases t0 : tlvTypeOf (tlvHeaderAt raw i) = 0
                    · rw [if_pos t0, if_pos t0]
                    · rw [if_neg t0, if_neg t0]; exact ih _ _
    · rw [if_neg h1, if_neg h1]

lemma elim_last_cons_eq (t : Nat) (vb : List Nat) (rest : List (Nat × List Nat))
    (b : Option (List Nat)) (f : List Nat → Option (List Nat)) :
    Option.elim (lastValueOfType t ((t, vb) :: rest)) b f =
    Option.elim (lastValueOfType t rest) (f vb) f := by
  cases h : lastValueOfType t rest <;> simp [lastValueOfType, h]

lemma elim_last_cons_ne {t ty : Nat} (hne : ty ≠ t) (vb : List Nat)
    (rest : List (Nat × List Nat)) (b : Option (List Nat))
    (f : List Nat → Option (List Nat)) :
    Option.elim (lastValueOfType t ((ty, vb) :: rest)) b f =
    Option.elim (lastValueOfType t rest) b f := by
  cases h : lastValueOfType t rest <;> simp [lastValueOfType, h, hne]

/-- When the TLV loop completes without an exception, each collected field
holds the value of the *last* TLV of its type among the records visited
(or keeps its incoming value when no such TLV was visited): each matching
TLV overwrites the field, so later occurrences shadow earlier ones. -/
lemma lldpLoopF_fields_last (raw : List Nat) :
    ∀ (fuel i : Nat) (st st' : LLDPFields),
      lldpLoopF raw fuel i st = .ok st' →
      st'.chassis_id_val =
        Option.elim (lastValueOfType 1 (walkTLVsF raw fuel i)) st.chassis_id_val
          (fun v => some (v.drop 1)) ∧
      st'.port_id_val =
        Option.elim (lastValueOfType 2 (walkTLVsF raw fuel i)) st.port_id_val
          (fun v => some (v.drop 1)) ∧
      st'.port_description_val =
        Option.elim (lastValueOfType 4 (walkTLVsF raw fuel i)) st.port_description_val some ∧
      st'.system_name_val =
        Option.elim (lastValueOfType 5 (walkTLVsF raw fuel i)) st.system_name_val some := by
  intro fuel
  induction fuel with
  | zero =>
    intro i st st' hb
    simp only [lldpLoopF] at hb
    injection hb with hb
    subst hb
    exact ⟨rfl, rfl, rfl, rfl⟩
  | succ fuel ih =>
    intro i st st' hb
    simp only [lldpLoopF] at hb
    simp only [walkTLVsF]
    by_cases h1 : i < raw.length
    case neg =>
      rw [if_neg h1] at hb
      rw [if_neg h1]
      injection hb with hb
      subst hb
      exact ⟨rfl, rfl, rfl, rfl⟩
    rw [if_pos h1] at hb
    rw [if_pos h1]
    by_cases h2 : i + 2 > raw.length
    case pos =>
      rw [if_pos h2] at hb
      rw [if_pos h2]
      injection hb with hb
      subst hb
      exact ⟨rfl, rfl, rfl, rfl⟩
    rw [if_neg h2] at hb
    rw [if_neg h2]
    by_cases h3 : i + 2 + tlvLenOf (tlvHeaderAt raw i) > raw.length
    case pos =>
      rw [if_pos h3] at hb
      rw [if_pos h3]
      injection hb with hb
      subst hb
      exact ⟨rfl, rfl, rfl, rfl⟩
    rw [if_neg h3] at hb
    rw [if_neg h3]
    by_cases t1 : tlvTypeOf (tlvHeaderAt raw i) = 1
    · rw [if_pos t1] at hb
      have ht0 : ¬ tlvTypeOf (tlvHeaderAt raw i) = 0 := by omega
      have h8 : ¬ (tlvTypeOf (tlvHeaderAt raw i) = 8 ∧
          1 < (tlvValueAt raw i (tlvLenOf (tlvHeaderAt raw i))).length ∧
          (tlvValueAt raw i (tlvLenOf (tlvHeaderAt raw i))).getD 1 0 = 1 ∧
          (((tlvValueAt raw i (tlvLenOf (tlvHeaderAt raw i))).drop 2).take 4).length ≠ 4) :=
        fun hc => by omega
      rw [if_neg ht0, if_neg h8, t1]
      obtain ⟨ihc, ihp, ihd, ihs⟩ := ih _ _ _ hb
      refine ⟨?_, ?_, ?_, ?_⟩
      · rw [elim_last_cons_eq]
        simpa using ihc
      · rw [elim_last_cons_ne (by omega)]
        simpa using ihp
      · rw [elim_last_cons_ne (by omega)]
        simpa using ihd
      · rw [elim_last_cons_ne (by omega)]
        simpa using ihs
    · rw [if_neg t1] at hb
      by_cases t2 : tlvTypeOf (tlvHeaderAt raw i) = 2
      · rw [if_pos t2] at hb
        have ht0 : ¬ tlvTypeOf (tlvHeaderAt raw i) = 0 := by omega
        have h8 : ¬ (tlvTypeOf (tlvHeaderAt raw i) = 8 ∧
            1 < (tlvValueAt raw i (tlvLenOf (tlvHeaderAt raw i))).length ∧
            (tlvValueAt raw i (tlvLenOf (tlvHeaderAt raw i))).getD 1 0 = 1 ∧
            (((tlvValueAt raw i (tlvLenOf (tlvHeaderAt raw i))).drop 2).take 4).length ≠ 4) :=
          fun hc => by omega
        rw [if_neg ht0, if_neg h8, t2]
        obtain ⟨ihc, ihp, ihd, ihs⟩ := ih _ _ _ hb
        refine ⟨?_, ?_, ?_, ?_⟩
        · rw [elim_last_cons_ne (by omega)]
          simpa using ihc
        · rw [elim_last_cons_eq]
          simpa using ihp
        · rw [elim_last_cons_ne (by omega)]
          simpa using ihd
        · rw [elim_last_cons_ne (by omega)]
          simpa using ihs
      · rw [if_neg t2] at hb
        by_cases t4 : tlvTypeOf (tlvHeaderAt raw i) = 4
        · rw [if_pos t4] at hb
          have ht0 : ¬ tlvTypeOf (tlvHeaderAt raw i) = 0 := by omega
          have h8 : ¬ (tlvTypeOf (tlvHeaderAt raw i) = 8 ∧
              1 < (tlvValueAt raw i (tlvLenOf (tlvHeaderAt raw i))).length ∧
              (tlvValueAt raw i (tlvLenOf (tlvHeaderAt raw i))).getD 1 0 = 1 ∧
              (((tlvValueAt raw i (tlvLenOf (tlvHeaderAt raw i))).drop 2).take 4).length ≠ 4) :=
            fun hc => by omega
          rw [if_neg ht0, if_neg h8, t4]
          obtain ⟨ihc, ihp, ihd, ihs⟩ := ih _ _ _ hb
          refine ⟨?_, ?_, ?_, ?_⟩
          · rw [elim_last_cons_ne (by omega)]
            simpa using ihc
          · rw [elim_last_cons_ne (by omega)]
            simpa using ihp
          · rw [elim_last_cons_eq]
            simpa using ihd
          · rw [elim_last_cons_ne (by omega)]
            simpa using ihs
        · rw [if_neg t4] at hb
          by_cases t5 : tlvTypeOf (tlvHeaderAt raw i) = 5
          · rw [if_pos t5] at hb
            have ht0 : ¬ tlvTypeOf (tlvHeaderAt raw i) = 0 := by omega
            have h8 : ¬ (tlvTypeOf (tlvHeaderAt raw i) = 8 ∧
                1 < (tlvValueAt raw i (tlvLenOf (tlvHeaderAt raw i))).length ∧
                (tlvValueAt raw i (tlvLenOf (tlvHeaderAt raw i))).getD 1 0 = 1 ∧
                (((tlvValueAt raw i (tlvLenOf (tlvHeaderAt raw i))).drop 2).take 4).length ≠ 4) :=
              fun hc => by omega
            rw [if_neg ht0, if_neg h8, t5]
            obtain ⟨ihc, ihp, ihd, ihs⟩ := ih _ _ _ hb
            refine ⟨?_, ?_, ?_, ?_⟩
            · rw [elim_last_cons_ne (by omega)]
              simpa using ihc
            · rw [elim_last_cons_ne (by omega)]
              simpa using ihp
            · rw [elim_last_cons_ne (by omega)]
              simpa using ihd
            · rw [elim_last_cons_eq]
              simpa using ihs
          · rw [if_neg t5] at hb
            by_cases t8 : tlvTypeOf (tlvHeaderAt raw i) = 8 ∧
                1 < (tlvValueAt raw i (tlvLenOf (tlvHeaderAt raw i))).length ∧
                (tlvValueAt raw i (tlvLenOf (tlvHeaderAt raw i))).getD 1 0 = 1
            · rw [if_pos t8] at hb
              have ht0 : ¬ tlvTypeOf (tlvHeaderAt raw i) = 0 := by
                obtain ⟨h8eq, -, -⟩ := t8
                omega
              by_cases hlen :
                  (((tlvValueAt raw i (tlvLenOf (tlvHeaderAt raw i))).drop 2).take 4).length = 4
              · have hok : inet_ntoa (((tlvValueAt raw i (tlvLenOf (tlvHeaderAt raw i))).drop 2).take 4) =
                    .ok (((tlvValueAt raw i (tlvLenOf (tlvHeaderAt raw i))).drop 2).take 4) := by
                  unfold inet_ntoa
                  rw [if_pos hlen]
                rw [hok] at hb
                have h8w : ¬ (tlvTypeOf (tlvHeaderAt raw i) = 8 ∧
                    1 < (tlvValueAt raw i (tlvLenOf (tlvHeaderAt raw i))).length ∧
                    (tlvValueAt raw i (tlvLenOf (tlvHeaderAt raw i))).getD 1 0 = 1 ∧
                    (((tlvValueAt raw i (tlvLenOf (tlvHeaderAt raw i))).drop 2).take 4).length ≠ 4) :=
                  fun hc => hc.2.2.2 hlen
                rw [if_neg ht0, if_neg h8w]
                obtain ⟨ihc, ihp, ihd, ihs⟩ := ih _ _ _ hb
                obtain ⟨h8eq, -, -⟩ := t8
                rw [h8eq]
                refine ⟨?_, ?_, ?_, ?_⟩
                · rw [elim_last_cons_ne (by omega)]
                  simpa using ihc
                · rw [elim_last_cons_ne (by omega)]
                  simpa using ihp
                · rw [elim_last_cons_ne (by omega)]
                  simpa using ihd
                · rw [elim_last_cons_ne (by omega)]
                  simpa using ihs
              · have herr : inet_ntoa (((tlvValueAt raw i (tlvLenOf (tlvHeaderAt raw i))).drop 2).take 4) =
                    .error "packed IP wrong length for inet_ntoa" := by
                  unfold inet_ntoa
                  rw [if_neg hlen]
                rw [herr] at hb
                exact absurd hb (by simp)
            · rw [if_neg t8] at hb
              by_cases t0 : tlvTypeOf (tlvHeaderAt raw i) = 0
              · rw [if_pos t0] at hb
                rw [if_pos t0]
                injection hb with hb
                subst hb
                exact ⟨rfl, rfl, rfl, rfl⟩
              · rw [if_neg t0] at hb
                have h8w : ¬ (tlvTypeOf (tlvHeaderAt raw i) = 8 ∧
                    1 < (tlvValueAt raw i (tlvLenOf (tlvHeaderAt raw i))).length ∧
                    (tlvValueAt raw i (tlvLenOf (tlvHeaderAt raw i))).getD 1 0 = 1 ∧
                    (((tlvValueAt raw i (tlvLenOf (tlvHeaderAt raw i))).drop 2).take 4).length ≠ 4) :=
                  fun hc => t8 ⟨hc.1, hc.2.1, hc.2.2.1⟩
                rw [if_neg t0, if_neg h8w]
                obtain ⟨ihc, ihp, ihd, ihs⟩ := ih _ _ _ hb
                refine ⟨?_, ?_, ?_, ?_⟩
                · rw [elim_last_cons_ne t1]
                  simpa using ihc
                · rw [elim_last_cons_ne t2]
                  simpa using ihp
                · rw [elim_last_cons_ne t4]
                  simpa using ihd
                · rw [elim_last_cons_ne t5]
                  simpa using ihs

/-- Inversion of a successful `lldpDecode`: the loop returned these fields
and the required-field truthiness check passed. -/
lemma lldpDecode_ok_inv {raw : List Nat} {st' : LLDPFields}
    (h : lldpDecode raw = .ok st') :
    lldpLoop raw 0 initFields = .ok st' ∧
    isFalsy st'.chassis_id_val = false ∧ isFalsy st'.port_id_val = false := by
  unfold lldpDecode at h
  cases hl : lldpLoop raw 0 initFields with
  | error e => simp only [hl] at h; simp at h
  | ok st =>
    simp only [hl] at h
    by_cases hf : (isFalsy st.chassis_id_val || isFalsy st.port_id_val) = true
    · rw [if_pos hf] at h
      simp at h
    · rw [if_neg hf] at h
      injection h with h
      subst h
      simp only [Bool.or_eq_true, not_or, Bool.not_eq_true] at hf
      exact ⟨rfl, hf.1, hf.2⟩

/-- The checked decoder agrees with the decoder end to end. -/
lemma lldpDecodeChecked_agree (raw : List Nat) :
    lldpDecodeChecked raw = some (lldpDecode raw) := by
  unfold lldpDecodeChecked lldpDecode lldpLoop
  rw [lldpLoopChecked_agree]
  cases lldpLoopF raw (raw.length + 1) 0 initFields with
  | error e => rfl
  | ok st =>
    by_cases hf : (isFalsy st.chassis_id_val || isFalsy st.port_id_val) = true
    · simp only [if_pos hf]
    · simp only [if_neg hf]

/-! # Claims -/

/-- C7: a capture session that reaches its timeout with nothing found emits
the "Scan complete. No LLDP or CDP packets found" report, while a run whose
`stop_discovery` flag was set by the caller emits no terminal report at all
(`finalReport` is `none`); a timeout-with-no-match run and a
stopped-by-caller run are therefore never reported through the same
outcome — one always carries the not-found message, the other never
does. -/
theorem c7_timeout_distinct_from_stop :
    (∀ t : Nat, finalReport false false t = some (scanCompleteMsg t)) ∧
    (∀ (found : Bool) (t : Nat), finalReport found true t = none) ∧
    (∀ (found : Bool) (t t' : Nat),
      (finalReport false false t).isSome = true ∧
      (finalReport found true t').isSome = false) := by
  refine ⟨fun t => rfl, fun found t => ?_, fun found t t' => ⟨rfl, ?_⟩⟩ <;>
    cases found <;> rfl

/-- C10: `continuous_ping` clears the shared stop event unconditionally on
entry, so (i) after any entry the event is down — a stop signalled before
the invocation began is discarded; (ii) within a single invocation (no
further `entry` event interleaved) a signalled stop stays signalled under
any sequence of `stop_ping` calls and loop iterations; and (iii) an entry
of a second invocation while a stop is pending for a running loop
un-signals it, so the running loop's next poll no longer sees the stop. -/
theorem c10_ping_clear_on_entry :
    (∀ s : PingState, (continuous_ping_entry s).stop_ping_event = false) ∧
    (∀ l : List PingStep, PingStep.entry ∉ l → ∀ s : PingState,
      s.stop_ping_event = true → (pingRun l s).stop_ping_event = true) ∧
    ((continuous_ping_entry ⟨true⟩).stop_ping_event = false ∧
      ping_iteration_sees_stop (continuous_ping_entry ⟨true⟩) = false) := by
  refine ⟨fun s => rfl, ?_, rfl, rfl⟩
  intro l
  induction l with
  | nil => intro _ s hs; exact hs
  | cons hd tl ih =>
    intro hmem s hs
    have hhd : hd ≠ PingStep.entry := fun h => hmem (h ▸ List.mem_cons_self hd tl)
    have htl : PingStep.entry ∉ tl := fun h => hmem (List.mem_cons_of_mem hd h)
    show (pingRun tl (pingStepApply s hd)).stop_ping_event = true
    refine ih htl _ ?_
    cases hd with
    | entry => exact absurd rfl hhd
    | stopSignal => rfl
    | iterate => exact hs

/-- Witness for `c10_ping_clear_on_entry`: a pending stop survives a
`stop_ping` call and a poll, at the concrete state with the event set. -/
theorem c10_witness :
    (pingRun [PingStep.stopSignal, PingStep.iterate] ⟨true⟩).stop_ping_event = true :=
  c10_ping_clear_on_entry.2.1 [PingStep.stopSignal, PingStep.iterate]
    (by decide) ⟨true⟩ rfl

/-- C2 counterexample: the aliveness guard and the thread spawn of
`start_discovery_capture` are separate steps with no lock around them, so
in the interleaving where both callers evaluate the guard before either
spawns, both see no live thread and both start a worker: two workers are
in flight at once, refuting "at most one in-flight worker exists per key
at any time, even under concurrent callers racing to start". -/
theorem c2_counterexample :
    (raceRun [RaceStep.checkA, RaceStep.checkB, RaceStep.actA, RaceStep.actB]
      raceInit).workers = 2 := rfl

/-- C2 (amended): for non-interleaved callers the single-flight behaviour
holds — a start while the referenced worker thread is alive is rejected
with the already-running outcome and changes nothing, a start after a
worker exit succeeds, and every sequential history of atomic starts and
worker exits keeps at most one worker in flight; the guarantee is *not*
atomic, so it does not extend to concurrent callers racing to start (see
the counterexample). -/
theorem c2_single_flight_sequential :
    (∀ s : SupState, s.threadAlive = true →
      start_discovery_capture s = (.alreadyRunning, s)) ∧
    (∀ s : SupState, (start_discovery_capture (workerExit s)).1 = .started) ∧
    (∀ (l : List SupOp) (s : SupState), supInv s → supInv (supRun l s)) ∧
    (∀ s : SupState, supInv s → s.workers ≤ 1) := by
  refine ⟨?_, ?_, ?_, ?_⟩
  · intro s h
    simp [start_discovery_capture, h]
  · intro s
    simp [start_discovery_capture, workerExit]
  · intro l
    induction l with
    | nil => intro s h; exact h
    | cons hd tl ih =>
      intro s h
      show supInv (supRun tl (supApply s hd))
      refine ih _ ?_
      rcases s with ⟨alive, w⟩
      unfold supInv at h ⊢
      cases hd with
      | startOp =>
        cases alive <;> simp_all [supApply, start_discovery_capture]
      | exitOp =>
        cases alive <;> simp_all [supApply, workerExit]
  · intro s h
    rcases s with ⟨alive, w⟩
    unfold supInv at h
    cases alive <;> simp_all

/-- Witness for `c2_single_flight_sequential`: at concrete inputs, a start
while a worker is alive is rejected without spawning, a start after the
exit succeeds, and the sequential history start-exit-start keeps the
invariant. -/
theorem c2_witness :
    start_discovery_capture ⟨true, 1⟩ = (.alreadyRunning, ⟨true, 1⟩) ∧
    (start_discovery_capture (workerExit ⟨true, 1⟩)).1 = .started ∧
    supInv (supRun [SupOp.startOp, SupOp.exitOp, SupOp.startOp] ⟨false, 0⟩) ∧
    (⟨true, 1⟩ : SupState).workers ≤ 1 :=
  ⟨c2_single_flight_sequential.1 ⟨true, 1⟩ rfl,
   c2_single_flight_sequential.2.1 ⟨true, 1⟩,
   c2_single_flight_sequential.2.2.1 [SupOp.startOp, SupOp.exitOp, SupOp.startOp]
     ⟨false, 0⟩ rfl,
   c2_single_flight_sequential.2.2.2 ⟨true, 1⟩ rfl⟩

/-- C1 counterexample: a frame carrying an LLDP layer whose payload fails
LLDP decoding (here: empty payload, so the essential-fields error is
raised) *and* carrying a CDP message that would decode successfully.  The
callback emits the LLDP parse error and returns `True` — the session
stops; the CDP decoder is never consulted even though it would have
produced an identity.  This refutes both "the session attempts CDP
decoding of the same frame" and "the session logs the failure and
continues waiting for further frames". -/
theorem c1_counterexample :
    packet_callback false false
      ⟨true, [], true, ⟨some [83, 87], some [71, 105], some [67], some []⟩⟩ =
      ⟨true, true, .lldpResult (.error essentialFieldsErr)⟩ ∧
    cdpDecode ⟨some [83, 87], some [71, 105], some [67], some []⟩ =
      .ok ⟨[83, 87], [71, 105], [67], naMarker⟩ :=
  ⟨rfl, rfl⟩

/-- C1 (amended): a frame with an LLDP layer is terminal whether or not
LLDP decoding succeeds — the decode outcome (identity or parse error) is
emitted and the callback returns `True`, stopping the session without ever
attempting CDP; CDP decoding is attempted only on frames without an LLDP
layer and is likewise terminal either way; only a frame with neither layer
leaves the session waiting for further frames (callback returns `False`,
nothing emitted). -/
theorem c1_lldp_frame_terminal (p : Frame) :
    (p.hasLLDPDU = true →
      packet_callback false false p =
        ⟨true, true, .lldpResult (lldpDecode p.lldp_payload)⟩) ∧
    (p.hasLLDPDU = false → p.hasCDPMsg = true →
      packet_callback false false p =
        ⟨true, true, .cdpResult (cdpDecode p.cdp_msg)⟩) ∧
    (p.hasLLDPDU = false → p.hasCDPMsg = false →
      packet_callback false false p = ⟨false, false, .noEvent⟩) := by
  refine ⟨fun h => ?_, fun h h' => ?_, fun h h' => ?_⟩
  · simp [packet_callback, h]
  · simp [packet_callback, h, h']
  · simp [packet_callback, h, h']

/-- Witness for `c1_lldp_frame_terminal`: the three frame shapes at
concrete inputs. -/
theorem c1_witness :
    packet_callback false false ⟨true, [], false, ⟨none, none, none, none⟩⟩ =
      ⟨true, true, .lldpResult (lldpDecode [])⟩ ∧
    packet_callback false false ⟨false, [], true, ⟨none, none, none, none⟩⟩ =
      ⟨true, true, .cdpResult (cdpDecode ⟨none, none, none, none⟩)⟩ ∧
    packet_callback false false ⟨false, [], false, ⟨none, none, none, none⟩⟩ =
      ⟨false, false, .noEvent⟩ :=
  ⟨(c1_lldp_frame_terminal _).1 rfl,
   (c1_lldp_frame_terminal _).2.1 rfl rfl,
   (c1_lldp_frame_terminal _).2.2 rfl rfl⟩

/-- C6 counterexample: a dissected CDP message with Device ID and Port ID
present but no Platform TLV (and an address TLV with one IPv4 record).
The attribute lookup `packet[CDPMsg].platform` raises, the branch's
`except` catches it, and the decode fails — Platform is *not* optional,
refuting "Platform and Address are optional (their absence still yields a
successful neighbor identity)". -/
theorem c6_counterexample :
    cdpDecode ⟨some [83, 87], some [71, 105], none, some [⟨1, [10, 0, 0, 1]⟩]⟩ =
      .error "Error parsing CDP packet: AttributeError: platform" := rfl

/-- C6 (amended): the CDP branch requires Device ID, Port ID, Platform
*and* the Address TLV — the absence of any of the four attribute lookups
raises and yields a decode failure; when all four are present the decode
succeeds and the management address is the `addr` of the *first* address
record of any protocol family (every scapy record class passes the
`isinstance(addr, CDPAddrRecord)` test), with the `"N-A"` marker when the
record list is empty. -/
theorem c6_cdp_required_fields :
    (∀ m : CDPMsgModel,
      m.device_id = none ∨ m.port_id = none ∨ m.platform = none ∨ m.addr = none →
      ∃ e, cdpDecode m = .error e) ∧
    (∀ (d p pl : List Nat) (a : List CDPAddrRec),
      cdpDecode ⟨some d, some p, some pl, some a⟩ =
        .ok ⟨d, p, pl,
          (((a.filter isinstanceCDPAddrRecord).head?).map CDPAddrRec.addr).getD naMarker⟩) ∧
    (∀ (d p pl : List Nat) (r : CDPAddrRec) (rest : List CDPAddrRec),
      cdpDecode ⟨some d, some p, some pl, some (r :: rest)⟩ =
        .ok ⟨d, p, pl, r.addr⟩) ∧
    (∀ d p pl : List Nat,
      cdpDecode ⟨some d, some p, some pl, some []⟩ = .ok ⟨d, p, pl, naMarker⟩) := by
  refine ⟨?_, fun d p pl a => rfl, fun d p pl r rest => rfl, fun d p pl => rfl⟩
  intro m h
  rcases m with ⟨d, p, pl, a⟩
  cases d with
  | none => exact ⟨_, rfl⟩
  | some d =>
    cases p with
    | none => exact ⟨_, rfl⟩
    | some p =>
      cases pl with
      | none => exact ⟨_, rfl⟩
      | some pl =>
        cases a with
        | none => exact ⟨_, rfl⟩
        | some a => simp at h

/-- Witness for `c6_cdp_required_fields`: a message missing its Device ID
fails, and a message whose first address record is not IPv4 (family 2)
still has that record's address reported. -/
theorem c6_witness :
    (∃ e, cdpDecode ⟨none, some [71], some [67], some []⟩ = .error e) ∧
    cdpDecode ⟨some [83], some [71], some [67], some [⟨2, [9, 9]⟩, ⟨1, [10, 0, 0, 1]⟩]⟩ =
      .ok ⟨[83], [71], [67], [9, 9]⟩ :=
  ⟨c6_cdp_required_fields.1 ⟨none, some [71], some [67], some []⟩ (Or.inl rfl),
   c6_cdp_required_fields.2.2.1 [83] [71] [67] ⟨2, [9, 9]⟩ [⟨1, [10, 0, 0, 1]⟩]⟩

/-- C3 counterexample: a payload with two distinct Chassis ID TLVs
(values `"AA"` and `"BB"` after the subtype byte) followed by a Port ID
TLV and the End TLV.  The decoder returns the *second* chassis value
`[66, 66]`, not the first `[65, 65]` — each assignment overwrites the
field, refuting "the decoder deterministically keeps the first
occurrence". -/
theorem c3_counterexample :
    lldpDecode [2, 3, 7, 65, 65, 2, 3, 7, 66, 66, 4, 3, 7, 80, 80, 0, 0] =
      .ok ⟨some [66, 66], some [80, 80], none, none, none⟩ := rfl

/-- C3 (amended): duplicate TLVs of one type are resolved by keeping the
**last** occurrence, not the first: on every successful decode each field
equals the value of the last visited TLV of its type (Chassis ID and Port
ID with the subtype byte stripped, Port Description and System Name
verbatim). -/
theorem c3_duplicate_tlv_last_wins (raw : List Nat) (st' : LLDPFields)
    (h : lldpDecode raw = .ok st') :
    st'.chassis_id_val =
      Option.elim (lastValueOfType 1 (walkTLVs raw 0)) none (fun v => some (v.drop 1)) ∧
    st'.port_id_val =
      Option.elim (lastValueOfType 2 (walkTLVs raw 0)) none (fun v => some (v.drop 1)) ∧
    st'.port_description_val =
      Option.elim (lastValueOfType 4 (walkTLVs raw 0)) none some ∧
    st'.system_name_val =
      Option.elim (lastValueOfType 5 (walkTLVs raw 0)) none some := by
  have hl := (lldpDecode_ok_inv h).1
  have hfields := lldpLoopF_fields_last raw (raw.length + 1) 0 initFields st' hl
  simpa [walkTLVs, initFields] using hfields

/-- Witness for `c3_duplicate_tlv_last_wins`: applied to the
duplicate-chassis payload, whose decode succeeds by computation. -/
theorem c3_witness :
    (⟨some [66, 66], some [80, 80], none, none, none⟩ : LLDPFields).chassis_id_val =
      Option.elim
        (lastValueOfType 1 (walkTLVs [2, 3, 7, 65, 65, 2, 3, 7, 66, 66, 4, 3, 7, 80, 80, 0, 0] 0))
        none (fun v => some (v.drop 1)) :=
  (c3_duplicate_tlv_last_wins [2, 3, 7, 65, 65, 2, 3, 7, 66, 66, 4, 3, 7, 80, 80, 0, 0]
    ⟨some [66, 66], some [80, 80], none, none, none⟩ rfl).1

/-- C4 counterexample: a payload whose third TLV declares 10 value bytes
with only 2 remaining.  The walk `break`s silently and — because Chassis
ID and Port ID were already collected — the decode *succeeds* with the
fields parsed so far, refuting "the LLDP TLV walk fails with a Truncated
decode error (it does not silently succeed with whatever fields were
parsed so far)". -/
theorem c4_counterexample :
    lldpDecode [2, 3, 7, 65, 65, 4, 3, 7, 66, 66, 8, 10, 1, 2] =
      .ok ⟨some [65, 65], some [66, 66], none, none, none⟩ := rfl

/-- C4 (amended): a buffer truncated mid-TLV ends the walk silently rather
than raising a Truncated error — with fewer than 2 header bytes left the
loop exits returning the fields collected so far, and likewise when the
declared value length overruns the remaining buffer (decoding then
succeeds or fails solely on whether Chassis ID and Port ID were already
collected); the walk never reads past the end of the buffer: the
bounds-instrumented decoder never fails a bounds check and agrees with the
decoder. -/
theorem c4_truncation_ends_walk_silently :
    (∀ (raw : List Nat) (i : Nat) (st : LLDPFields), raw.length < i + 2 →
      lldpLoop raw i st = .ok st) ∧
    (∀ (raw : List Nat) (i : Nat) (st : LLDPFields), i + 2 ≤ raw.length →
      raw.length < i + 2 + tlvLenOf (tlvHeaderAt raw i) →
      lldpLoop raw i st = .ok st) ∧
    (∀ raw : List Nat, lldpDecodeChecked raw = some (lldpDecode raw)) := by
  refine ⟨?_, ?_, lldpDecodeChecked_agree⟩
  · intro raw i st h
    unfold lldpLoop
    simp only [lldpLoopF]
    by_cases h1 : i < raw.length
    · rw [if_pos h1, if_pos (show i + 2 > raw.length by omega)]
    · rw [if_neg h1]
  · intro raw i st h2 hlen
    unfold lldpLoop
    simp only [lldpLoopF]
    rw [if_pos (show i < raw.length by omega),
      if_neg (show ¬ i + 2 > raw.length by omega),
      if_pos (show i + 2 + tlvLenOf (tlvHeaderAt raw i) > raw.length by omega)]

/-- Witness for `c4_truncation_ends_walk_silently`: fewer than two bytes
left at offset 0 of `[5]`, and a declared length of 10 against 2 remaining
bytes at offset 10 of the counterexample buffer. -/
theorem c4_witness :
    lldpLoop [5] 0 initFields = .ok initFields ∧
    lldpLoop [2, 3, 7, 65, 65, 4, 3, 7, 66, 66, 8, 10, 1, 2] 10 initFields =
      .ok initFields :=
  ⟨c4_truncation_ends_walk_silently.1 [5] 0 initFields (by decide),
   c4_truncation_ends_walk_silently.2.1 [2, 3, 7, 65, 65, 4, 3, 7, 66, 66, 8, 10, 1, 2]
     10 initFields (by decide) (by decide)⟩

/-- C5: the TLV header is the 16-bit big-endian word at the current offset,
split as type = upper 7 bits (`header >>> 9 = header / 2^9`) and length =
lower 9 bits (`header &&& 0x1FF = header % 2^9`), followed by exactly
`length` value bytes; and a type-0 (End-of-LLDPDU) TLV makes the loop
return the collected fields as a normal, non-error stop even when bytes
remain after it. -/
theorem c5_header_layout_and_end_tlv :
    (∀ hdr : Nat, tlvTypeOf hdr = hdr / 2 ^ 9 ∧ tlvLenOf hdr = hdr % 2 ^ 9) ∧
    (∀ (raw : List Nat) (i : Nat),
      tlvHeaderAt raw i = 256 * raw.getD i 0 + raw.getD (i + 1) 0) ∧
    (∀ (raw : List Nat) (i L : Nat), i + 2 + L ≤ raw.length →
      (tlvValueAt raw i L).length = L) ∧
    (∀ (raw : List Nat) (i : Nat) (st : LLDPFields), i + 2 ≤ raw.length →
      i + 2 + tlvLenOf (tlvHeaderAt raw i) ≤ raw.length →
      tlvTypeOf (tlvHeaderAt raw i) = 0 → lldpLoop raw i st = .ok st) := by
  refine ⟨?_, fun raw i => rfl, ?_, ?_⟩
  · intro hdr
    constructor
    · exact Nat.shiftRight_eq_div_pow hdr 9
    · show hdr &&& 511 = hdr % 2 ^ 9
      have hmask := Nat.and_pow_two_sub_one_eq_mod hdr 9
      norm_num at hmask ⊢
      exact hmask
  · intro raw i L h
    unfold tlvValueAt
    rw [List.length_take, List.length_drop]
    omega
  · intro raw i st h2 hlen h0
    unfold lldpLoop
    simp only [lldpLoopF]
    rw [if_pos (show i < raw.length by omega),
      if_neg (show ¬ i + 2 > raw.length by omega),
      if_neg (show ¬ i + 2 + tlvLenOf (tlvHeaderAt raw i) > raw.length by omega),
      if_neg (show ¬ tlvTypeOf (tlvHeaderAt raw i) = 1 by omega),
      if_neg (show ¬ tlvTypeOf (tlvHeaderAt raw i) = 2 by omega),
      if_neg (show ¬ tlvTypeOf (tlvHeaderAt raw i) = 4 by omega),
      if_neg (show ¬ tlvTypeOf (tlvHeaderAt raw i) = 5 by omega),
      if_neg (show ¬ (tlvTypeOf (tlvHeaderAt raw i) = 8 ∧
        1 < (tlvValueAt raw i (tlvLenOf (tlvHeaderAt raw i))).length ∧
        (tlvValueAt raw i (tlvLenOf (tlvHeaderAt raw i))).getD 1 0 = 1)
        from fun hc => by omega),
      if_pos h0]

/-- Witness for `c5_header_layout_and_end_tlv`: the value slice of a
1-byte TLV at offset 0 of `[0, 0, 5]` has length 1, and on `[0, 0, 9, 9]`
the leading End TLV stops the loop with two unread bytes remaining. -/
theorem c5_witness :
    tlvTypeOf 1027 = 1027 / 2 ^ 9 ∧
    (tlvValueAt [0, 0, 5] 0 1).length = 1 ∧
    lldpLoop [0, 0, 9, 9] 0 initFields = .ok initFields :=
  ⟨(c5_header_layout_and_end_tlv.1 1027).1,
   c5_header_layout_and_end_tlv.2.2.1 [0, 0, 5] 0 1 (by decide),
   c5_header_layout_and_end_tlv.2.2.2 [0, 0, 9, 9] 0 initFields
     (by decide) (by decide) (by decide)⟩

/-- C8: the LLDP decode is a total function to a decode result (it is a
terminating Lean function by construction), and it never reads out of
bounds: the bounds-instrumented replay, in which every indexed byte access
must be in range, never fails and returns exactly the decoder's result —
on any buffer, including arbitrarily corrupt ones; and the loop offset
strictly increases every iteration (`i` advances to
`i + 2 + declared length ≥ i + 2`). -/
theorem c8_no_out_of_bounds_no_crash :
    (∀ raw : List Nat, lldpDecodeChecked raw = some (lldpDecode raw)) ∧
    (∀ (raw : List Nat) (i : Nat) (st : LLDPFields),
      lldpLoopChecked raw (raw.length + 1) i st = some (lldpLoop raw i st)) ∧
    (∀ (raw : List Nat) (i : Nat), i < i + 2 + tlvLenOf (tlvHeaderAt raw i)) :=
  ⟨lldpDecodeChecked_agree,
   fun raw i st => lldpLoopChecked_agree raw (raw.length + 1) i st,
   fun _ _ => by omega⟩

/-- C9: a Chassis ID or Port ID TLV whose declared length is at most 1
leaves an empty field value after the subtype byte is stripped; the
required-fields truthiness check treats an empty value exactly like an
absent one, so the decode fails with the essential-fields error; and no
successful decode ever carries an absent or empty Chassis ID or Port
ID. -/
theorem c9_empty_required_field_rejected :
    (∀ (raw : List Nat) (st : LLDPFields), lldpLoop raw 0 initFields = .ok st →
      (isFalsy st.chassis_id_val || isFalsy st.port_id_val) = true →
      lldpDecode raw = .error essentialFieldsErr) ∧
    (∀ (raw : List Nat) (i : Nat), tlvLenOf (tlvHeaderAt raw i) ≤ 1 →
      (tlvValueAt raw i (tlvLenOf (tlvHeaderAt raw i))).drop 1 = []) ∧
    (∀ (raw : List Nat) (st' : LLDPFields), lldpDecode raw = .ok st' →
      st'.chassis_id_val ≠ none ∧ st'.chassis_id_val ≠ some [] ∧
      st'.port_id_val ≠ none ∧ st'.port_id_val ≠ some []) := by
  refine ⟨?_, ?_, ?_⟩
  · intro raw st h hf
    unfold lldpDecode
    simp only [h]
    rw [if_pos hf]
  · intro raw i h
    rw [List.drop_eq_nil_iff]
    unfold tlvValueAt
    rw [List.length_take]
    omega
  · intro raw st' h
    obtain ⟨-, hc, hp⟩ := lldpDecode_ok_inv h
    refine ⟨?_, ?_, ?_, ?_⟩
    · intro hco
      rw [hco] at hc
      simp [isFalsy] at hc
    · intro hco
      rw [hco] at hc
      simp [isFalsy] at hc
    · intro hpo
      rw [hpo] at hp
      simp [isFalsy] at hp
    · intro hpo
      rw [hpo] at hp
      simp [isFalsy] at hp

/-- Witness for `c9_empty_required_field_rejected`: a payload whose
Chassis ID TLV has declared length 1 (only the subtype byte, empty value)
and a well-formed Port ID TLV fails with the essential-fields error; the
1-byte TLV indeed produces the empty field value; and the successful
decode of a well-formed payload has non-empty required fields. -/
theorem c9_witness :
    lldpDecode [2, 1, 7, 4, 3, 7, 80, 80, 0, 0] = .error essentialFieldsErr ∧
    (tlvValueAt [2, 1, 7, 4, 3, 7, 80, 80, 0, 0] 0
      (tlvLenOf (tlvHeaderAt [2, 1, 7, 4, 3, 7, 80, 80, 0, 0] 0))).drop 1 = [] ∧
    (⟨some [65, 65], some [66, 66], none, none, none⟩ : LLDPFields).chassis_id_val ≠
      some [] :=
  ⟨c9_empty_required_field_rejected.1 [2, 1, 7, 4, 3, 7, 80, 80, 0, 0]
     ⟨some [], some [80, 80], none, none, none⟩ rfl rfl,
   c9_empty_required_field_rejected.2.1 [2, 1, 7, 4, 3, 7, 80, 80, 0, 0] 0 (by decide),
   (c9_empty_required_field_rejected.2.2 [2, 3, 7, 65, 65, 4, 3, 7, 66, 66, 0, 0]
     ⟨some [65, 65], some [66, 66], none, none, none⟩ rfl).2.1⟩

end NetworkTriage
